import Mathlib

/-!
Verification development for a PDF retrieval-augmented-generation backend.

The embedding below mirrors, in order:
  * `pdf_processor.py` — `PDFProcessor` construction and multi-file loading;
  * `vector_store.py` — the `VectorStore` wrapper around a persistent store;
  * `rag_pipeline.py` — the two-stage retrieve/generate pipeline;
  * `main.py` — the application state and the chat / batch-upload handlers.

External capabilities (the PDF text extractor, the Chroma similarity search
and the completion model) are modelled as explicit function parameters, and
the underlying persistent collection as a list of documents.  Machine-level
side effects (printing, on-disk persistence) are dropped; the state they act
on is threaded explicitly.
-/

/-- A langchain `Document`: a `page_content` string plus a metadata map
(modelled as an association list of string pairs). -/
structure Document where
  page_content : String
  metadata : List (String × String)
deriving Repr, DecidableEq

/-- Environment configuration read via `os.getenv`: each variable is either
unset (`none`) or set to a numeric value. -/
structure Env where
  CHUNK_SIZE : Option Nat
  CHUNK_OVERLAP : Option Nat
  TOP_K_RESULTS : Option Nat
deriving Repr, DecidableEq

/-- `os.getenv(var, default)` followed by `int(...)`: the variable's value
when set, the default otherwise. -/
def getenvNat (v : Option Nat) (d : Nat) : Nat :=
  v.getD d

/-- Python's `x or d` for an `int`-or-`None` `x`: both `None` and `0` are
falsy, so either yields `d`. -/
def pyOr (x : Option Nat) (d : Nat) : Nat :=
  match x with
  | none => d
  | some n => if n = 0 then d else n

/-- `PDFProcessor` from `pdf_processor.py`: holds the resolved chunking
parameters. -/
structure PDFProcessor where
  chunk_size : Nat
  chunk_overlap : Nat
deriving Repr, DecidableEq

/-- `PDFProcessor.__init__`: `self.chunk_size = chunk_size or
int(os.getenv("CHUNK_SIZE", "1000"))` and likewise for the overlap with
default `200`. -/
def PDFProcessor.init (env : Env) (chunk_size chunk_overlap : Option Nat) :
    PDFProcessor :=
  { chunk_size := pyOr chunk_size (getenvNat env.CHUNK_SIZE 1000)
    chunk_overlap := pyOr chunk_overlap (getenvNat env.CHUNK_OVERLAP 200) }

/-- `PDFProcessor.load_multiple_pdfs`: iterate over the paths, `try` to load
each one, extend the accumulator on success and swallow (merely print) the
exception on failure.  The per-file loader — `load_pdf`, which wraps the
external `PyPDFLoader` and the text splitter — is passed in as a fallible
function. -/
def load_multiple_pdfs (load : String → Except String (List Document))
    (file_paths : List String) : List Document :=
  file_paths.foldl
    (fun all_chunks file_path =>
      match load file_path with
      | .ok chunks => all_chunks ++ chunks
      | .error _ => all_chunks)
    []

/-- The underlying Chroma collection, modelled as the list of stored
documents. -/
structure Store where
  docs : List Document
deriving Repr, DecidableEq

/-- `VectorStore` from `vector_store.py`: `self.vectorstore` is `None` until
a store is created or loaded. -/
structure VectorStore where
  vectorstore : Option Store
  persist_directory : String
deriving Repr, DecidableEq

/-- `VectorStore.__init__`: when the persist directory exists on disk the
constructor loads the existing store (`_load_existing_store`, success path);
otherwise `self.vectorstore` stays `None`. -/
def VectorStore.startup (persist_exists : Bool) (persisted : Store)
    (persist_directory : String) : VectorStore :=
  { vectorstore := if persist_exists then some persisted else none
    persist_directory := persist_directory }

/-- `VectorStore.create_store`: raises `ValueError("No documents provided to
create store")` on an empty list, otherwise builds a fresh store from the
documents. -/
def create_store (vs : VectorStore) (documents : List Document) :
    Except String VectorStore :=
  if documents.isEmpty then
    .error "No documents provided to create store"
  else
    .ok { vs with vectorstore := some { docs := documents } }

/-- `VectorStore.add_documents`: lazily creates the store when
`self.vectorstore` is `None`, otherwise delegates to the underlying store's
`add_documents` (modelled as appending to the collection). -/
def add_documents (vs : VectorStore) (documents : List Document) :
    Except String VectorStore :=
  match vs.vectorstore with
  | none => create_store vs documents
  | some s => .ok { vs with vectorstore := some { docs := s.docs ++ documents } }

/-- The `ValueError` message raised by `similarity_search` on an
uninitialized store. -/
def notInitializedMsg : String :=
  "Vector store not initialized. Add documents first."

/-- `VectorStore.similarity_search`: raises on an uninitialized store,
otherwise resolves `k` (`k or int(os.getenv("TOP_K_RESULTS", "4"))`) and
delegates to the external Chroma search capability. -/
def similarity_search (search_cap : Store → String → Nat → List Document)
    (vs : VectorStore) (query : String) (k : Option Nat)
    (env : Env) : Except String (List Document) :=
  match vs.vectorstore with
  | none => .error notInitializedMsg
  | some s => .ok (search_cap s query (pyOr k (getenvNat env.TOP_K_RESULTS 4)))

/-- `VectorStore.clear_store`: `delete_collection` and reset
`self.vectorstore` to `None` when a store exists; silently do nothing
otherwise. -/
def clear_store (vs : VectorStore) : VectorStore :=
  match vs.vectorstore with
  | some _ => { vs with vectorstore := none }
  | none => vs

/-- Result of `VectorStore.get_store_info`. -/
structure StoreInfo where
  status : String
  document_count : Nat
deriving Repr, DecidableEq

/-- `VectorStore.get_store_info`: `{"status": "empty", "document_count": 0}`
without a store, `{"status": "ready", ...}` with one (success path of the
collection count). -/
def get_store_info (vs : VectorStore) : StoreInfo :=
  match vs.vectorstore with
  | none => { status := "empty", document_count := 0 }
  | some s => { status := "ready", document_count := s.docs.length }

/-- `GraphState` from `rag_pipeline.py` (the `vectorstore` field is carried
by the pipeline itself here, not duplicated in the state). -/
structure GraphState where
  question : String
  context : List String
  answer : String
  retrieved_docs : List Document
deriving Repr, DecidableEq

/-- `RAGPipeline._create_prompt`: the fixed prompt template. -/
def create_prompt (context question : String) : String :=
  "You are a helpful assistant that answers questions based on the provided context.\n\nContext:\n"
    ++ context
    ++ "\n\nQuestion: " ++ question
    ++ "\n\nAnswer the question based solely on the context provided above. If the context doesn\x27t contain enough information to answer the question, say so. Be concise and accurate.\n\nAnswer:"

/-- `RAGPipeline._template_response`: the fixed fallback used when no LLM is
available or the LLM call failed. -/
def template_response (context question : String) : String :=
  if context = "" then
    "I couldn\x27t find relevant information in the documents to answer your question."
  else
    "Based on the available documents, here are the relevant excerpts:\n\n"
      ++ context.take 500
      ++ "...\n\n[Note: Using local processing. For better answers, configure an LLM API key in .env]"

/-- The fixed "no relevant information found" message the spec promises for
an empty context. -/
def noRelevantMsg : String :=
  "I couldn\x27t find relevant information in the documents to answer your question."

/-- The excerpt response the spec promises for a non-empty context: the
first 500 characters of the joined context, framed as relevant excerpts with
a hint to configure a real completion capability. -/
def excerptResponse (context : String) : String :=
  "Based on the available documents, here are the relevant excerpts:\n\n"
    ++ context.take 500
    ++ "...\n\n[Note: Using local processing. For better answers, configure an LLM API key in .env]"

/-- `RAGPipeline._retrieve_node`: search the pipeline's store with
`k = int(os.getenv("TOP_K_RESULTS", "4"))` and populate `retrieved_docs`
and `context`.  The pipeline holds the raw Chroma store, so the search
capability is a plain function (no initialization check at this layer). -/
def retrieve_node (search : String → Nat → List Document) (env : Env)
    (state : GraphState) : GraphState :=
  let k := getenvNat env.TOP_K_RESULTS 4
  let docs := search state.question k
  { state with retrieved_docs := docs
               context := docs.map (·.page_content) }

/-- `RAGPipeline._generate_node`: join the context with blank lines; without
an LLM fall back to the template response; with one, `try` the LLM on the
prompt and fall back to the template response on any exception. -/
def generate_node (llm : Option (String → Except String String))
    (state : GraphState) : GraphState :=
  let context := String.intercalate "\n\n" state.context
  let question := state.question
  let answer :=
    match llm with
    | none => template_response context question
    | some f =>
      match f (create_prompt context question) with
      | .ok response => response
      | .error _ => template_response context question
  { state with answer := answer }

/-- The initial state built at the top of `RAGPipeline.query`, generalised
over the `context` field for stating properties of `_generate_node` alone
(`query` itself always passes `[]`). -/
def initState (question : String) (context : List String) : GraphState :=
  { question := question
    context := context
    answer := ""
    retrieved_docs := [] }

/-- The compiled two-node graph: `retrieve` then `generate`. -/
def pipelineRun (search : String → Nat → List Document)
    (llm : Option (String → Except String String)) (env : Env)
    (question : String) : GraphState :=
  generate_node llm (retrieve_node search env (initState question []))

/-- One `sources` entry of a query response. -/
structure Source where
  content : String
  metadata : List (String × String)
deriving Repr, DecidableEq

/-- The response dictionary returned by `RAGPipeline.query`. -/
structure QueryResult where
  question : String
  answer : String
  sources : List Source
deriving Repr, DecidableEq

/-- `RAGPipeline.query`: run the graph and assemble
`{question, answer, sources}`, each source being the document's
`page_content[:200] + "..."` plus its metadata. -/
def query (search : String → Nat → List Document)
    (llm : Option (String → Except String String)) (env : Env)
    (question : String) : QueryResult :=
  let result := pipelineRun search llm env question
  { question := question
    answer := result.answer
    sources := result.retrieved_docs.map
      (fun doc => { content := doc.page_content.take 200 ++ "..."
                    metadata := doc.metadata }) }

/-- The capabilities a constructed `RAGPipeline` closes over: the raw store's
search function and the (optional, fallible) completion model. -/
structure Pipeline where
  search : String → Nat → List Document
  llm : Option (String → Except String String)

/-- The application state of `main.py`: the global `vector_store` and the
lazily constructed `rag_pipeline` singleton. -/
structure AppState where
  vector_store : VectorStore
  rag_pipeline : Option Pipeline

/-- `main.py` module initialization: construct the global `VectorStore`
(loading a persisted store when the persist directory exists) and leave
`rag_pipeline = None`. -/
def appStartup (persist_exists : Bool) (persisted : Store)
    (persist_directory : String) : AppState :=
  { vector_store := VectorStore.startup persist_exists persisted persist_directory
    rag_pipeline := none }

/-- The HTTP 400 detail raised by `chat` when `rag_pipeline is None` — the
code's `PipelineNotReady` failure. -/
def pipelineNotReadyMsg : String :=
  "No documents loaded. Please upload a PDF first."

/-- The `chat` endpoint of `main.py`: fail with `PipelineNotReady` when the
pipeline singleton is uninitialized, otherwise run the query (the query
itself is total, so the surrounding `try` has no failing branch in the
model). -/
def chat (env : Env) (st : AppState) (question : String) :
    Except String QueryResult :=
  match st.rag_pipeline with
  | none => .error pipelineNotReadyMsg
  | some p => .ok (query p.search p.llm env question)

/-- Python's `str.endswith(suffix)`, on the character sequences of the two
strings. -/
def pyEndsWith (s suffix : String) : Bool :=
  suffix.toList.isSuffixOf s.toList

/-- The loop body of `upload_multiple_pdfs` in `main.py`: skip files without
a `.pdf` suffix, load and ingest each remaining file, and abort the whole
batch on the first exception (the enclosing `try` wraps the entire loop).
Returns the updated store together with the processed file names and the
total chunk count. -/
def uploadLoop (load : String → Except String (List Document))
    (vs : VectorStore) (processed_files : List String) (total_chunks : Nat) :
    List String → Except String (VectorStore × List String × Nat)
  | [] => .ok (vs, processed_files, total_chunks)
  | f :: rest =>
    if !pyEndsWith f ".pdf" then
      uploadLoop load vs processed_files total_chunks rest
    else
      match load f with
      | .error e => .error ("Error processing PDFs: " ++ e)
      | .ok chunks =>
        match add_documents vs chunks with
        | .error e => .error ("Error processing PDFs: " ++ e)
        | .ok vs2 =>
          uploadLoop load vs2 (processed_files ++ [f])
            (total_chunks + chunks.length) rest

/-- Result summary of the batch-upload endpoint. -/
structure UploadSummary where
  files : List String
  total_chunks : Nat
deriving Repr, DecidableEq

/-- The `upload-multiple-pdfs` endpoint of `main.py`: run the loop, then
lazily initialize the `rag_pipeline` singleton from the (possibly updated)
store.  `mkPipeline` stands for the `RAGPipeline` constructor with its
capability selection. -/
def upload_multiple_pdfs (load : String → Except String (List Document))
    (mkPipeline : VectorStore → Pipeline) (st : AppState)
    (files : List String) : Except String (AppState × UploadSummary) :=
  match uploadLoop load st.vector_store [] 0 files with
  | .error e => .error e
  | .ok (vs, processed_files, total_chunks) =>
    let rp := match st.rag_pipeline with
      | none => some (mkPipeline vs)
      | some p => some p
    .ok ({ vector_store := vs, rag_pipeline := rp },
         { files := processed_files, total_chunks := total_chunks })

/-- Modelled from the spec: the chunker itself is langchain's
`RecursiveCharacterTextSplitter`, a third-party library not part of this
repository.  Following §4.1, segments are at most `chunk_size` characters
and adjacent segments overlap by `chunk_overlap` characters, so consecutive
segments start `chunk_size - chunk_overlap` characters apart.  `fuel` bounds
the recursion by the input length. -/
def splitCharsAux (chunk_size step : Nat) :
    Nat → List Char → List (List Char)
  | 0, s => [s]
  | fuel + 1, s =>
    if s.length ≤ chunk_size then [s]
    else s.take chunk_size :: splitCharsAux chunk_size step fuel (s.drop step)

/-- Modelled from the spec: split a character sequence into segments of at
most `chunk_size` characters, adjacent segments sharing `chunk_overlap`
characters (§4.1). -/
def splitChars (chunk_size chunk_overlap : Nat) (s : List Char) :
    List (List Char) :=
  splitCharsAux chunk_size (chunk_size - chunk_overlap) s.length s

/-- Modelled from the spec: the chunker's `split` contract on a page text,
as a `String` wrapper around `splitChars`. -/
def split_text (chunk_size chunk_overlap : Nat) (text : String) :
    List String :=
  (splitChars chunk_size chunk_overlap text.toList).map List.asString

/-- Concatenate chunk texts while removing the declared `chunk_overlap`
region at the start of every chunk but the first (the round-trip
reconstruction of §8, on character lists). -/
def joinWithoutOverlap (chunk_overlap : Nat) : List (List Char) → List Char
  | [] => []
  | c :: cs => c ++ (cs.map (List.drop chunk_overlap)).flatten

/-- `joinWithoutOverlap` on chunk strings. -/
def joinChunks (chunk_overlap : Nat) (chunks : List String) : String :=
  (joinWithoutOverlap chunk_overlap (chunks.map String.toList)).asString

/-- An all-unset environment (every variable read falls back to its coded
default). -/
def envNone : Env :=
  { CHUNK_SIZE := none, CHUNK_OVERLAP := none, TOP_K_RESULTS := none }

/-- A sample stored document used in concrete instantiations. -/
def sampleDoc : Document :=
  { page_content := "X is a protocol for Y"
    metadata := [("source_file", "sample.pdf"), ("chunk_id", "0")] }

/-- A `VectorStore` whose underlying store was never created. -/
def vsUninit : VectorStore :=
  { vectorstore := none, persist_directory := "./chroma_db" }

/-- A `VectorStore` holding one document. -/
def vsReady : VectorStore :=
  { vectorstore := some { docs := [sampleDoc] }
    persist_directory := "./chroma_db" }

/-- Helper: a string truncated with `String.take n` has length at most
`n`. -/
theorem string_take_length_le (s : String) (n : Nat) :
    (s.take n).length ≤ n := by
  rw [String.take_eq]
  show (s.data.take n).length ≤ n
  rw [List.length_take]
  exact Nat.min_le_left n s.data.length

/-- C10: passing an explicit `0` for a chunking parameter is falsy in the
`x or default` idiom, so `PDFProcessor(chunk_overlap=0)` gets the default
overlap `200` and `PDFProcessor(chunk_size=0)` gets the default size `1000`
(environment variables unset). -/
theorem C10_zero_arg_replaced_by_default (env : Env)
    (chunk_size chunk_overlap : Option Nat)
    (hco : env.CHUNK_OVERLAP = none) (hcs : env.CHUNK_SIZE = none) :
    (PDFProcessor.init env chunk_size (some 0)).chunk_overlap = 200
    ∧ (PDFProcessor.init env (some 0) chunk_overlap).chunk_size = 1000 := by
  constructor
  · simp [PDFProcessor.init, pyOr, getenvNat, hco]
  · simp [PDFProcessor.init, pyOr, getenvNat, hcs]

/-- Witness for C10 at the all-unset environment. -/
theorem C10_zero_arg_replaced_by_default_witness :
    envNone.CHUNK_OVERLAP = none ∧ envNone.CHUNK_SIZE = none
    ∧ (PDFProcessor.init envNone none (some 0)).chunk_overlap = 200
    ∧ (PDFProcessor.init envNone (some 0) none).chunk_size = 1000 :=
  ⟨rfl, rfl,
    (C10_zero_arg_replaced_by_default envNone none none rfl rfl).1,
    (C10_zero_arg_replaced_by_default envNone none none rfl rfl).2⟩

/-- C2: `similarity_search` on a `VectorStore` whose store was never
initialized fails with the `NotInitialized` `ValueError`, for every query,
every `k` and every environment; in particular it never returns a result
list (empty or not) in that state. -/
theorem C2_search_uninitialized_fails
    (search_cap : Store → String → Nat → List Document) (vs : VectorStore)
    (q : String) (k : Option Nat) (env : Env)
    (h : vs.vectorstore = none) :
    similarity_search search_cap vs q k env = .error notInitializedMsg
    ∧ ∀ results : List Document,
        similarity_search search_cap vs q k env ≠ .ok results := by
  refine ⟨?_, ?_⟩
  · simp [similarity_search, h]
  · intro results
    simp [similarity_search, h]

/-- Witness for C2 on the concrete uninitialized store. -/
theorem C2_search_uninitialized_fails_witness :
    vsUninit.vectorstore = none
    ∧ similarity_search (fun _ _ _ => []) vsUninit "What is X?" none envNone
        = .error notInitializedMsg :=
  ⟨rfl,
    (C2_search_uninitialized_fails (fun _ _ _ => []) vsUninit "What is X?"
      none envNone rfl).1⟩

/-- C8: `clear_store` is idempotent: after one or two calls the reported
status is `"empty"`, and the second call changes nothing (and, being total,
raises no error). -/
theorem C8_clear_idempotent (vs : VectorStore) :
    (get_store_info (clear_store vs)).status = "empty"
    ∧ clear_store (clear_store vs) = clear_store vs
    ∧ (get_store_info (clear_store (clear_store vs))).status = "empty" := by
  obtain ⟨ov, pd⟩ := vs
  cases ov <;> simp [clear_store, get_store_info]

/-- C7 counterexample: on a never-initialized store, `add_documents([])`
takes the lazy-creation path and `create_store` raises
`ValueError("No documents provided to create store")` — not a no-op. -/
theorem C7_counterexample :
    add_documents vsUninit [] = .error "No documents provided to create store"
    ∧ ∀ vs : VectorStore, add_documents vsUninit [] ≠ .ok vs := by
  refine ⟨rfl, ?_⟩
  intro vs
  simp [add_documents, vsUninit, create_store]

/-- C7 amended: `add_documents([])` is a no-op (no error, state unchanged)
on an initialized store, where it delegates an empty append to the
underlying collection; on an uninitialized store it instead raises the
`create_store` `ValueError`. -/
theorem C7_upsert_empty (vs : VectorStore) :
    (∀ s, vs.vectorstore = some s → add_documents vs [] = .ok vs)
    ∧ (vs.vectorstore = none →
        add_documents vs [] = .error "No documents provided to create store") := by
  constructor
  · intro s h
    obtain ⟨ov, pd⟩ := vs
    obtain ⟨ds⟩ := s
    cases h
    simp [add_documents]
  · intro h
    simp [add_documents, h, create_store]

/-- Witness for C7 amended on concrete initialized and uninitialized
stores. -/
theorem C7_upsert_empty_witness :
    vsReady.vectorstore = some { docs := [sampleDoc] }
    ∧ add_documents vsReady [] = .ok vsReady
    ∧ vsUninit.vectorstore = none
    ∧ add_documents vsUninit []
        = .error "No documents provided to create store" :=
  ⟨rfl, (C7_upsert_empty vsReady).1 { docs := [sampleDoc] } rfl, rfl,
    (C7_upsert_empty vsUninit).2 rfl⟩

/-- C3 counterexample: with `context_chunks = [""]` (a non-empty sequence)
and no LLM, the blank-line join is the empty string, so `_generate_node`
returns the fixed "no relevant information" message — not the excerpt
response the claim predicts for non-empty `context_chunks`. -/
theorem C3_counterexample :
    ([""] : List String) ≠ []
    ∧ (generate_node none (initState "What is X?" [""])).answer = noRelevantMsg
    ∧ noRelevantMsg ≠ excerptResponse (String.intercalate "\n\n" [""]) := by
  refine ⟨by decide, rfl, ?_⟩
  have hj : String.intercalate "\n\n" [""] = "" := rfl
  have ht : ("" : String).take 500 = "" := by
    rw [String.take_eq]; rfl
  rw [hj]
  simp only [excerptResponse, ht]
  decide

/-- C3 amended: with the completion capability unavailable or failing,
`_generate_node` returns the fixed "no relevant information" message exactly
when the blank-line join of `context_chunks` is the empty string (which
holds when `context_chunks` is empty, and also when it is the single empty
string), and otherwise the excerpt of the first 500 characters of the
joined context. -/
theorem C3_template_fallback (question : String) (context_chunks : List String)
    (f : String → Except String String)
    (hf : ∀ p, ∃ e, f p = .error e) :
    ((generate_node none (initState question context_chunks)).answer
      = if String.intercalate "\n\n" context_chunks = "" then noRelevantMsg
        else excerptResponse (String.intercalate "\n\n" context_chunks))
    ∧ ((generate_node (some f) (initState question context_chunks)).answer
      = if String.intercalate "\n\n" context_chunks = "" then noRelevantMsg
        else excerptResponse (String.intercalate "\n\n" context_chunks)) := by
  constructor
  · rfl
  · obtain ⟨e, he⟩ :=
      hf (create_prompt (String.intercalate "\n\n" context_chunks) question)
    simp only [generate_node, initState, he]
    rfl

/-- Witness for C3 amended: a failing capability on a one-chunk context
yields the excerpt response. -/
theorem C3_template_fallback_witness :
    (∀ p : String,
      ∃ e, (fun _ : String => (.error "timeout" : Except String String)) p
        = .error e)
    ∧ (generate_node (some fun _ => .error "timeout")
        (initState "What is X?" ["X is a protocol for Y"])).answer
      = (if String.intercalate "\n\n" ["X is a protocol for Y"] = ""
         then noRelevantMsg
         else excerptResponse
           (String.intercalate "\n\n" ["X is a protocol for Y"])) :=
  ⟨fun _ => ⟨"timeout", rfl⟩,
    (C3_template_fallback "What is X?" ["X is a protocol for Y"]
      (fun _ => .error "timeout") (fun _ => ⟨"timeout", rfl⟩)).2⟩

/-- C4: an error raised by the completion capability inside
`_generate_node` is recovered locally — the answer becomes the template
response — and the `chat` handler still returns a successful result for any
pipeline built over such a capability (the failure never surfaces as a
query failure). -/
theorem C4_llm_error_recovered (st : GraphState)
    (f : String → Except String String) (e : String)
    (h : f (create_prompt (String.intercalate "\n\n" st.context) st.question)
      = .error e) :
    ((generate_node (some f) st).answer
      = template_response (String.intercalate "\n\n" st.context) st.question)
    ∧ ∀ (search : String → Nat → List Document) (env : Env)
        (vs : VectorStore) (question : String),
        chat env
          { vector_store := vs,
            rag_pipeline := some { search := search, llm := some f } }
          question
          = .ok (query search (some f) env question) := by
  constructor
  · simp only [generate_node, h]
  · intro search env vs question
    rfl

/-- Witness for C4 with an always-failing capability on a concrete state. -/
theorem C4_llm_error_recovered_witness :
    ((fun _ : String => (.error "boom" : Except String String))
      (create_prompt
        (String.intercalate "\n\n" (initState "q" ["some context"]).context)
        (initState "q" ["some context"]).question) = .error "boom")
    ∧ (generate_node (some fun _ => .error "boom")
        (initState "q" ["some context"])).answer
      = template_response
          (String.intercalate "\n\n" (initState "q" ["some context"]).context)
          (initState "q" ["some context"]).question :=
  ⟨rfl,
    (C4_llm_error_recovered (initState "q" ["some context"])
      (fun _ => .error "boom") "boom" rfl).1⟩

/-- C9: every source entry of a query response is the retrieved document's
text truncated to its first (at most 200) characters plus the `"..."`
marker; the retrieved documents reaching response assembly are exactly the
search results, their texts untouched (truncation is presentation-only). -/
theorem C9_sources_presentation_only
    (search : String → Nat → List Document)
    (llm : Option (String → Except String String)) (env : Env)
    (question : String) :
    ((query search llm env question).sources
      = (pipelineRun search llm env question).retrieved_docs.map
          (fun doc =>
            { content := doc.page_content.take 200 ++ "..."
              metadata := doc.metadata }))
    ∧ ((pipelineRun search llm env question).retrieved_docs
      = search question (getenvNat env.TOP_K_RESULTS 4))
    ∧ ∀ doc ∈ (pipelineRun search llm env question).retrieved_docs,
        (doc.page_content.take 200).length ≤ 200 := by
  refine ⟨rfl, ?_, ?_⟩
  · cases llm <;> rfl
  · intro doc _
    exact string_take_length_le doc.page_content 200

/-- C5 counterexample: after a process start that reloads a persisted store
(`status = "ready"`), `rag_pipeline` is still `None`, so `chat` fails with
the `PipelineNotReady` error even though the index status is ready. -/
theorem C5_counterexample :
    (get_store_info
        (appStartup true { docs := [sampleDoc] } "./chroma_db").vector_store).status
      = "ready"
    ∧ chat envNone (appStartup true { docs := [sampleDoc] } "./chroma_db")
        "What is X?"
      = .error pipelineNotReadyMsg :=
  ⟨rfl, rfl⟩

/-- C5 amended: a query fails with `PipelineNotReady` exactly when the
in-process `rag_pipeline` singleton is uninitialized (no upload has
completed in this process) — a condition that is not equivalent to
`info().status != ready`, since a store reloaded from disk at startup is
ready while the pipeline is still uninitialized. -/
theorem C5_pipeline_not_ready_iff (env : Env) (st : AppState)
    (question : String) :
    chat env st question = .error pipelineNotReadyMsg
      ↔ st.rag_pipeline = none := by
  cases h : st.rag_pipeline <;> simp [chat, h]

/-- C6 counterexample: the batch-upload endpoint wraps its whole loop in one
`try`, so a failure on the second document aborts the batch — the third
document is never processed and no per-document failure report accompanies
the first document's success; the endpoint returns a single HTTP 500
error. -/
theorem C6_counterexample :
    upload_multiple_pdfs
      (fun p => if p = "bad.pdf" then .error ("PDF file not found: " ++ p)
                else .ok [{ page_content := "chunk from " ++ p, metadata := [] }])
      (fun _ => { search := fun _ _ => [], llm := none })
      (appStartup false { docs := [] } "./chroma_db")
      ["a.pdf", "bad.pdf", "c.pdf"]
      = .error "Error processing PDFs: PDF file not found: bad.pdf" := by
  rfl

/-- C6 amended: `PDFProcessor.load_multiple_pdfs` does tolerate
per-document failures — a failing document is skipped (its error only
printed, not part of the returned result) and the remaining documents are
still processed, the result being exactly that of the batch without the
failing document; the batch-upload HTTP endpoint, by contrast, aborts on
the first failure. -/
theorem C6_batch_failure_skipped
    (load : String → Except String (List Document))
    (pre post : List String) (p e : String)
    (h : load p = .error e) :
    load_multiple_pdfs load (pre ++ p :: post)
      = load_multiple_pdfs load (pre ++ post) := by
  unfold load_multiple_pdfs
  rw [List.foldl_append, List.foldl_append, List.foldl_cons]
  simp only [h]

/-- Witness for C6 amended: skipping a failing middle document leaves the
other two documents' chunks. -/
theorem C6_batch_failure_skipped_witness :
    ((fun p => if p = "bad.pdf" then .error "boom" else .ok [sampleDoc]) :
        String → Except String (List Document)) "bad.pdf" = .error "boom"
    ∧ load_multiple_pdfs
        (fun p => if p = "bad.pdf" then .error "boom" else .ok [sampleDoc])
        (["a.pdf"] ++ "bad.pdf" :: ["c.pdf"])
      = load_multiple_pdfs
          (fun p => if p = "bad.pdf" then .error "boom" else .ok [sampleDoc])
          (["a.pdf"] ++ ["c.pdf"]) :=
  ⟨rfl,
    C6_batch_failure_skipped
      (fun p => if p = "bad.pdf" then .error "boom" else .ok [sampleDoc])
      ["a.pdf"] ["c.pdf"] "bad.pdf" "boom" rfl⟩

/-- Helper for C1: dropping the overlap from every chunk the splitter emits
and flattening yields the input with its first `chunk_overlap` characters
dropped. -/
theorem splitCharsAux_drop_flatten (chunk_size chunk_overlap : Nat)
    (h : chunk_overlap < chunk_size) (fuel : Nat) :
    ∀ t : List Char,
      ((splitCharsAux chunk_size (chunk_size - chunk_overlap) fuel t).map
          (List.drop chunk_overlap)).flatten
        = t.drop chunk_overlap := by
  induction fuel with
  | zero =>
    intro t
    simp [splitCharsAux]
  | succ n ih =>
    intro t
    by_cases hle : t.length ≤ chunk_size
    · simp [splitCharsAux, hle]
    · rw [splitCharsAux, if_neg hle, List.map_cons, List.flatten_cons,
        ih (t.drop (chunk_size - chunk_overlap)), List.drop_drop,
        Nat.sub_add_cancel (Nat.le_of_lt h), List.drop_take]
      have hdc : List.drop chunk_size t
          = List.drop (chunk_size - chunk_overlap)
              (List.drop chunk_overlap t) := by
        rw [List.drop_drop, Nat.add_sub_cancel' (Nat.le_of_lt h)]
      rw [hdc, List.take_append_drop]

/-- Helper for C1: the round-trip on character lists, for any fuel. -/
theorem joinWithoutOverlap_splitCharsAux (chunk_size chunk_overlap : Nat)
    (h : chunk_overlap < chunk_size) (fuel : Nat) (t : List Char) :
    joinWithoutOverlap chunk_overlap
        (splitCharsAux chunk_size (chunk_size - chunk_overlap) fuel t)
      = t := by
  cases fuel with
  | zero => simp [splitCharsAux, joinWithoutOverlap]
  | succ n =>
    by_cases hle : t.length ≤ chunk_size
    · simp [splitCharsAux, hle, joinWithoutOverlap]
    · rw [splitCharsAux, if_neg hle, joinWithoutOverlap,
        splitCharsAux_drop_flatten chunk_size chunk_overlap h n,
        List.drop_drop, Nat.sub_add_cancel (Nat.le_of_lt h),
        List.take_append_drop]

/-- C1: splitting a page text with the (spec-modelled) chunker and then
concatenating the chunk texts while removing the declared `chunk_overlap`
prefix of every chunk after the first reconstructs the original text, for
every valid configuration `chunk_overlap < chunk_size`. -/
theorem C1_chunk_roundtrip (chunk_size chunk_overlap : Nat) (text : String)
    (h : chunk_overlap < chunk_size) :
    joinChunks chunk_overlap (split_text chunk_size chunk_overlap text)
      = text := by
  unfold joinChunks split_text
  have hmaps : ∀ cs : List (List Char),
      (cs.map List.asString).map String.toList = cs := by
    intro cs
    rw [List.map_map]
    have hcomp : String.toList ∘ List.asString = id :=
      funext fun l => List.toList_asString l
    rw [hcomp, List.map_id]
  rw [hmaps, splitChars,
    joinWithoutOverlap_splitCharsAux chunk_size chunk_overlap h,
    String.asString_toList]

/-- Witness for C1 at `chunk_size = 3`, `chunk_overlap = 1` on a six-char
text (chunks `abc`, `cde`, `ef`). -/
theorem C1_chunk_roundtrip_witness :
    1 < 3 ∧ joinChunks 1 (split_text 3 1 "abcdef") = "abcdef" :=
  ⟨by decide, C1_chunk_roundtrip 3 1 "abcdef" (by decide)⟩
